import Mathlib

/-!
Verification of the codex-live collaborative-text core.

The development shallowly embeds two layers of the system:

1. The replicated-text layer (`src/core/CRDT.ts`).  The class wraps a
   `Y.Text` buffer; a `Y.Text` used through `insert` / `delete` /
   `toString` behaves exactly like a character sequence, so the buffer is
   modelled by its observable content, a `List Char`.  The functions
   `CRDT.insert`, `CRDT.delete`, `CRDT.setContent`, `CRDT.getContent`
   below are direct transcriptions of the corresponding methods.

2. The session-coordination layer (`src/core/CollaborationServer.ts`).
   Server state is the pair of the `documents` and `connections` tables;
   JavaScript `Map`s become association lists with `Map.set` semantics,
   and every handler is a pure function from a state and an inbound
   message to the new state plus the list of outbound frames, each frame
   tagged with the connection id of its target socket.  `Date`-valued
   bookkeeping fields (timestamps, lastActivity) and byte counters carry
   no claim-relevant information and are left out of the state.

For the synchronisation claims (replica convergence, snapshot/restore)
the deciding code is the external Y.js library (`Y.encodeStateAsUpdate`,
`Y.applyUpdate`), which is not part of the repository; that layer is
modelled from the specification, as marked on the definitions.
-/

/-- Clamp of an integer position into `[0, len]`:
`Math.max(0, Math.min(position, length))` from `CRDT.insert` /
`CRDT.delete` (CRDT.ts lines 485, 494). -/
def clampPos (position : Int) (len : Nat) : Nat :=
  (max 0 (min position (len : Int))).toNat

/-- Transcription of `CRDT.getContent` (CRDT.ts line 466):
`yText.toString()`, i.e. the observable content itself. -/
def CRDT.getContent (t : List Char) : List Char := t

/-- Transcription of `CRDT.insert` (CRDT.ts lines 483-487):
`yText.insert(Math.max(0, Math.min(position, yText.length)), content)`. -/
def CRDT.insert (position : Int) (content : List Char) (t : List Char) : List Char :=
  t.take (clampPos position t.length) ++ content ++ t.drop (clampPos position t.length)

/-- Transcription of `CRDT.delete` (CRDT.ts lines 492-498):
`validPosition = Math.max(0, Math.min(position, yText.length))`,
`validLength = Math.max(0, Math.min(length, yText.length - validPosition))`,
then `yText.delete(validPosition, validLength)`. -/
def CRDT.delete (position length_ : Int) (t : List Char) : List Char :=
  let validPosition := clampPos position t.length
  let validLength := (max 0 (min length_ ((t.length : Int) - validPosition))).toNat
  t.take validPosition ++ t.drop (validPosition + validLength)

/-- Transcription of `CRDT.setContent` (CRDT.ts lines 473-478):
`yText.delete(0, yText.length); yText.insert(0, content)`. -/
def CRDT.setContent (content : List Char) (t : List Char) : List Char :=
  CRDT.insert 0 content (CRDT.delete 0 (t.length) t)

/-- Spec-side clamp, written after the words of the spec:
"clamped into `[0, len]`". -/
def clampSpec (p : Int) (len : Nat) : Nat :=
  min ((max p 0).toNat) len

/-- Spec-side description of an accepted insert, written after the words
of claim C3: "the new content equals t with s inserted at position
clamp(p, 0, len)".  Compared against `CRDT.insert` in the C3 theorem. -/
def insertSpecAt (t s : List Char) (p : Int) : List Char :=
  t.take (clampSpec p t.length) ++ s ++ t.drop (clampSpec p t.length)

/-! ### Replicated operation log (spec-modelled synchronisation layer)

`CRDT.exportState` / `CRDT.importState` (CRDT.ts lines 581-593) delegate
to `Y.encodeStateAsUpdate` / `Y.applyUpdate` of the external Y.js
library, whose implementation is not in the repository.  The definitions
in this section are therefore modelled from the spec (sections 3, 4.1):
a replica owns the causal set of operations it has incorporated; an
encoded state update carries that set; importing a state update merges
the two sets idempotently; the visible text is a deterministic
materialisation of the causally ordered log, each operation applied at
its (clamped) position. -/

/-- Operation payload (spec section 3, `Operation`): an insert carries
content, a delete carries a length, retain is a position-only no-op. -/
inductive OpKind where
  | insertK (position : Int) (content : List Char)
  | deleteK (position : Int) (length_ : Int)
  | retainK (position : Int)
deriving DecidableEq

/-- Modelled from the spec: an operation record, "tagged record
`(kind, position, payload, site, lamport, opId)`"; `opId` is globally
unique, `(site, lamport)` provides the total order for tie-breaking. -/
structure Op where
  site : String
  lamport : Nat
  opId : String
  kind : OpKind
deriving DecidableEq

/-- Injection of an operation payload into a lexicographically ordered
key (used only to give `Op` a total order). -/
def OpKind.key : OpKind → Lex (Nat × Lex (Int × Lex ((List Char) × Int)))
  | .insertK p c => toLex (0, toLex (p, toLex (c, 0)))
  | .deleteK p l => toLex (1, toLex (p, toLex ([], l)))
  | .retainK p => toLex (2, toLex (p, toLex ([], 0)))

/-- Total-order key of an operation: lamport timestamp first, then site,
then opId, then the payload (spec: causal order by Lamport clock, ties
broken by `(site, lamport)` ascending).  String identifiers are compared
through their character lists. -/
def Op.key (o : Op) :
    Lex (Nat × Lex ((List Char) × Lex ((List Char) ×
      Lex (Nat × Lex (Int × Lex ((List Char) × Int)))))) :=
  toLex (o.lamport, toLex (o.site.data, toLex (o.opId.data, o.kind.key)))

/-- The total order on operations, lifted along the injective key. -/
instance : LinearOrder Op :=
  LinearOrder.lift' Op.key (by
    intro a b h
    obtain ⟨sa, la, ia, ka⟩ := a
    obtain ⟨sb, lb, ib, kb⟩ := b
    obtain ⟨da⟩ := sa
    obtain ⟨ea⟩ := ia
    obtain ⟨db⟩ := sb
    obtain ⟨eb⟩ := ib
    simp only [Op.key, toLex_inj, Prod.mk.injEq] at h
    obtain ⟨h1, h2, h3, h4⟩ := h
    have hk : ka = kb := by
      cases ka <;> cases kb <;> simp_all [OpKind.key, toLex_inj, Prod.mk.injEq]
    simp_all)

instance : IsAntisymm Op (· < ·) :=
  ⟨fun _ _ h1 h2 => absurd h1 (lt_asymm h2)⟩

/-- Canonical insertion of an operation into a sorted, duplicate-free
log (modelled from the spec: `apply_remote` is idempotent, duplicates
are silently ignored). -/
def insertOp (o : Op) : List Op → List Op
  | [] => [o]
  | x :: xs =>
    if o = x then x :: xs
    else if o < x then o :: x :: xs
    else x :: insertOp o xs

/-- Modelled from the spec: merging an encoded state update (a set of
operations) into a log is the idempotent set union, kept in canonical
order. -/
def mergeOps (incoming log : List Op) : List Op :=
  incoming.foldl (fun acc o => insertOp o acc) log

/-- Replica state (spec section 3, `ReplicatedText` plus its site and
Lamport clock): the causal set of incorporated operations, kept as a
canonically sorted log. -/
structure Replica where
  siteId : String
  clock : Nat
  ops : List Op

/-- A freshly constructed replica: empty log, clock zero
(`new CRDT(siteId)`). -/
def Replica.new (siteId : String) : Replica :=
  { siteId := siteId, clock := 0, ops := [] }

/-- One materialisation step: apply an operation to the visible text at
its clamped position (spec section 4.1: positions out of range are
clamped into `[0, len]`; retain is a no-op on content). -/
def applyOp (text : List Char) (o : Op) : List Char :=
  match o.kind with
  | .insertK p c => CRDT.insert p c text
  | .deleteK p l => CRDT.delete p l text
  | .retainK _ => text

/-- Modelled from the spec: `content()` is the materialisation of the
causally ordered op log ("ordered sequence of characters produced by
applying the op log; must equal the result of applying the same causal
set of ops on any replica", spec section 3). -/
def Replica.content (r : Replica) : List Char :=
  r.ops.foldl applyOp []

/-- Modelled from the spec: `snapshot()` / `exportState()` encodes the
whole incorporated-operation set ("the snapshot is self-sufficient to
restore without external state", spec section 6). -/
def Replica.exportState (r : Replica) : List Op := r.ops

/-- Modelled from the spec: `restore` / `importState` merges the decoded
operation set into the replica's own causal set. -/
def Replica.importState (r : Replica) (update : List Op) : Replica :=
  { r with ops := mergeOps update r.ops }

/-- Modelled from the spec: the vector clock maps each site to the
highest lamport observed from it (spec section 3, `VectorClock`). -/
def Replica.vclock (r : Replica) (site : String) : Nat :=
  (r.ops.filter (fun o => o.site = site)).foldl (fun m o => max m o.lamport) 0

/-- Modelled from the spec: `apply_local(kind, pos, payload)` generates a
new op stamped with the local site and next lamport, applies it, and
returns it for broadcast (spec section 4.1).  The globally unique opId
is supplied by the caller (`uuidv4()` in the source). -/
def Replica.applyLocalOperation (r : Replica) (kind : OpKind)
    (opId : String) : Replica × Op :=
  let op : Op := { site := r.siteId, lamport := r.clock + 1, opId := opId, kind := kind }
  ({ r with clock := r.clock + 1, ops := insertOp op r.ops }, op)

/-- A canonical log: strictly sorted in the total order of operations
(hence duplicate-free).  Every log reachable through `Replica.new`,
`applyLocalOperation` and `importState` is canonical. -/
abbrev Canonical (l : List Op) : Prop :=
  l.Sorted (· < ·)

/-! ### Collaboration server (`src/core/CollaborationServer.ts`) -/

/-- A JSON field of an inbound frame as the validation code sees it:
absent, present but not a string, or a string value. -/
inductive JField where
  | missing
  | nonStringVal
  | strVal (s : String)
deriving DecidableEq

/-- JavaScript test `!(field) || typeof field !== 'string'`, negated:
the field passes validation iff it is a non-empty string (the empty
string is falsy in JavaScript). -/
def JField.isValidString : JField → Bool
  | .strVal s => !(s == "")
  | _ => false

/-- The string payload of a field that passed `isValidString`. -/
def JField.getStr : JField → String
  | .strVal s => s
  | _ => ""

/-- User entry of a document session (`User` in types.ts; the
`color` assigned by `generateUserColor` is `Math.random`-dependent and
claim-irrelevant, and `Date` fields are outside the model). -/
structure UserEntry where
  name : String
  isOnline : Bool
deriving DecidableEq

/-- `ClientConnection` (CollaborationServer.ts lines 20-29), reduced to
the claim-relevant fields; `isOpen` models `socket.readyState === 1`. -/
structure ClientConnection where
  userId : String
  documentId : String
  isOpen : Bool
deriving DecidableEq

/-- Operation object of an inbound `operation` frame
(`CRDTOperation` in CRDT.ts): each field is optional since the server
validates presence by JavaScript truthiness. -/
structure OperFields where
  type_ : Option String
  position : Option Int
  userId : Option String
  content : Option String
  length_ : Option Int
  operationId : Option String
deriving DecidableEq

/-- Truthiness of `operation.type`: present and a non-empty string. -/
def OperFields.typeTruthy (o : OperFields) : Bool :=
  match o.type_ with
  | some s => !(s == "")
  | none => false

/-- Truthiness of `operation.position`: present and not the number 0
(`!operation.position` is true for `position === 0` in JavaScript). -/
def OperFields.positionTruthy (o : OperFields) : Bool :=
  match o.position with
  | some v => !(v == 0)
  | none => false

/-- Truthiness of `operation.userId`: present and a non-empty string. -/
def OperFields.userIdTruthy (o : OperFields) : Bool :=
  match o.userId with
  | some s => !(s == "")
  | none => false

/-- Outbound frame, tagged as in the wire protocol.  Event payloads are
reduced to their claim-relevant fields (user arrays become lists of user
ids). -/
inductive SMsg where
  | errorMsg (error : String)
  | documentState (content : List Char) (users : List String)
  | presenceInfo (users : List String)
  | userJoined (userId : String)
  | operationReceived (op : OperFields) (userId : String)
  | cursorChanged (position : Int) (userId : String)
  | selectionChanged (start : Int) (endPos : Int) (userId : String)
deriving DecidableEq

/-- Document session (CollaborationServer.ts lines 31-44), reduced to
the claim-relevant fields; `content` mirrors `crdt.getContent()` and
`document.content`. -/
structure DocumentSession where
  users : List (String × UserEntry)
  connections : List (String × ClientConnection)
  content : List Char
  totalOperations : Nat
  totalUsers : Nat
  peakConcurrentUsers : Nat
deriving DecidableEq

/-- Whole server state: the `documents` and `connections` tables
(CollaborationServer.ts lines 56-57). -/
structure ServerState where
  documents : List (String × DocumentSession)
  connections : List (String × ClientConnection)
deriving DecidableEq

/-- `Map.get`: first binding of the key, if any. -/
def mapGet {α : Type} (m : List (String × α)) (k : String) : Option α :=
  match m with
  | [] => none
  | (k', v) :: rest => if k' = k then some v else mapGet rest k

/-- `Map.set`: replace the binding if the key is present, else append. -/
def mapSet {α : Type} (m : List (String × α)) (k : String) (v : α) :
    List (String × α) :=
  match m with
  | [] => [(k, v)]
  | (k', v') :: rest =>
    if k' = k then (k, v) :: rest else (k', v') :: mapSet rest k v

/-- Transcription of `broadcastToDocument` (CollaborationServer.ts lines
555-569): iterate the session's connections, skip the excluded
connection id, and send the event to every socket with
`readyState === 1`. -/
def broadcastToDocument (st : ServerState) (documentId : String) (event : SMsg)
    (excludeConnectionId : Option String) : List (String × SMsg) :=
  match mapGet st.documents documentId with
  | none => []
  | some session =>
    session.connections.filterMap fun c =>
      if excludeConnectionId = some c.1 then none
      else if c.2.isOpen then some (c.1, event) else none

/-- Inbound `join_document` frame: the three validated fields. -/
structure JoinMsg where
  userId : JField
  documentId : JField
  userName : JField
deriving DecidableEq

/-- A fresh document session as built by `getOrCreateDocumentSession`
(CollaborationServer.ts lines 520-550): empty tables, empty content,
zeroed metrics. -/
def freshSession : DocumentSession :=
  { users := [], connections := [], content := [],
    totalOperations := 0, totalUsers := 0, peakConcurrentUsers := 0 }

/-- Transcription of `handleJoinDocument` (CollaborationServer.ts lines
219-300): validate the three required fields in order, reject a
connection id that is already in the connection table, otherwise create
or fetch the session, register user and connection, bump the user
metrics, send `document_state` to the joiner, broadcast `user_joined`
to the other peers, and send `presence_info` to the joiner. -/
def handleJoinDocument (st : ServerState) (connectionId : String) (msg : JoinMsg) :
    ServerState × List (String × SMsg) :=
  if msg.userId.isValidString = false then
    (st, [(connectionId, .errorMsg "User ID is required and must be a string")])
  else if msg.documentId.isValidString = false then
    (st, [(connectionId, .errorMsg "Document ID is required and must be a string")])
  else if msg.userName.isValidString = false then
    (st, [(connectionId, .errorMsg "User name is required and must be a string")])
  else if (mapGet st.connections connectionId).isSome then
    (st, [(connectionId, .errorMsg "Connection already joined a document")])
  else
    let uid := msg.userId.getStr
    let did := msg.documentId.getStr
    let user : UserEntry := { name := msg.userName.getStr, isOnline := true }
    let conn : ClientConnection := { userId := uid, documentId := did, isOpen := true }
    let session := (mapGet st.documents did).getD freshSession
    let session1 : DocumentSession :=
      { session with
        users := mapSet session.users uid user,
        connections := mapSet session.connections connectionId conn,
        totalUsers := session.totalUsers + 1 }
    let session2 : DocumentSession :=
      { session1 with
        peakConcurrentUsers := max session1.peakConcurrentUsers session1.connections.length }
    let st1 : ServerState :=
      { documents := mapSet st.documents did session2,
        connections := mapSet st.connections connectionId conn }
    (st1,
      [(connectionId, .documentState session2.content (session2.users.map (·.1)))] ++
        broadcastToDocument st1 did (.userJoined uid) (some connectionId) ++
        [(connectionId, .presenceInfo (session2.users.map (·.1)))])

/-- Inbound `operation` frame: the operation object, absent when the
frame has no object-valued `operation` field. -/
structure OperationMsg where
  operation : Option OperFields
deriving DecidableEq

/-- Transcription of `handleOperation` (CollaborationServer.ts lines
305-365).  When the connection id is not in the connection table the
source re-fetches the same missing connection before calling
`sendError`, so that branch sends nothing and returns (lines 306-313).
Otherwise: missing session replies `Document not found`; a frame
without an operation object replies `Invalid operation format`;
`!operation.type || !operation.position || !operation.userId` replies
`Operation missing required fields`; an accepted operation leaves the
CRDT untouched ("Y.js handles remote operations automatically"),
increments `metrics.totalOperations`, and broadcasts
`operation_received` to the other peers of the document. -/
def handleOperation (st : ServerState) (connectionId : String) (msg : OperationMsg) :
    ServerState × List (String × SMsg) :=
  match mapGet st.connections connectionId with
  | none => (st, [])
  | some conn =>
    match mapGet st.documents conn.documentId with
    | none => (st, [(connectionId, .errorMsg "Document not found")])
    | some session =>
      match msg.operation with
      | none => (st, [(connectionId, .errorMsg "Invalid operation format")])
      | some op =>
        if !op.typeTruthy || !op.positionTruthy || !op.userIdTruthy then
          (st, [(connectionId, .errorMsg "Operation missing required fields")])
        else
          let session1 := { session with totalOperations := session.totalOperations + 1 }
          let st1 : ServerState :=
            { st with documents := mapSet st.documents conn.documentId session1 }
          (st1, broadcastToDocument st1 conn.documentId
            (.operationReceived op conn.userId) (some connectionId))

/-- `cursor` object of an inbound `cursor_update` frame; `position` is
absent when `typeof cursor.position !== 'number'`. -/
structure CursorFields where
  position : Option Int
deriving DecidableEq

/-- Inbound `cursor_update` frame. -/
structure CursorMsg where
  cursor : Option CursorFields
deriving DecidableEq

/-- Transcription of `handleCursorUpdate` (CollaborationServer.ts lines
370-391): silently return unless the connection, its session, the
cursor object and a numeric `position` are all present; then broadcast
`cursor_changed` carrying the position exactly as supplied, to the
other peers of the document.  No clamping is performed. -/
def handleCursorUpdate (st : ServerState) (connectionId : String) (msg : CursorMsg) :
    ServerState × List (String × SMsg) :=
  match mapGet st.connections connectionId with
  | none => (st, [])
  | some conn =>
    match mapGet st.documents conn.documentId with
    | none => (st, [])
    | some _ =>
      match msg.cursor with
      | none => (st, [])
      | some cf =>
        match cf.position with
        | none => (st, [])
        | some pos =>
          (st, broadcastToDocument st conn.documentId
            (.cursorChanged pos conn.userId) (some connectionId))

/-- `selection` object of an inbound `selection_update` frame. -/
structure SelectionFields where
  start : Option Int
  endPos : Option Int
deriving DecidableEq

/-- Inbound `selection_update` frame. -/
structure SelectionMsg where
  selection : Option SelectionFields
deriving DecidableEq

/-- Transcription of `handleSelectionUpdate` (CollaborationServer.ts
lines 396-417): silently return unless the connection, its session, the
selection object and numeric `start` and `end` are all present; then
broadcast `selection_changed` carrying both endpoints exactly as
supplied, to the other peers.  No normalisation and no clamping are
performed. -/
def handleSelectionUpdate (st : ServerState) (connectionId : String) (msg : SelectionMsg) :
    ServerState × List (String × SMsg) :=
  match mapGet st.connections connectionId with
  | none => (st, [])
  | some conn =>
    match mapGet st.documents conn.documentId with
    | none => (st, [])
    | some _ =>
      match msg.selection with
      | none => (st, [])
      | some sf =>
        match sf.start with
        | none => (st, [])
        | some s =>
          match sf.endPos with
          | none => (st, [])
          | some e =>
            (st, broadcastToDocument st conn.documentId
              (.selectionChanged s e conn.userId) (some connectionId))

/-! ### Concrete fixtures used by witnesses and counterexamples -/

/-- The empty server state. -/
def emptyServer : ServerState := { documents := [], connections := [] }

/-- Server state after `user1` joins `doc1` on connection `c1` and
`user2` joins `doc1` on connection `c2`. -/
def serverAB : ServerState :=
  (handleJoinDocument
    (handleJoinDocument emptyServer "c1"
      { userId := .strVal "user1", documentId := .strVal "doc1",
        userName := .strVal "User One" }).1
    "c2"
    { userId := .strVal "user2", documentId := .strVal "doc1",
      userName := .strVal "User Two" }).1

/-- The `doc1` session of `serverAB`. -/
def sessionAB : DocumentSession := (mapGet serverAB.documents "doc1").getD freshSession

/-- The connection record of `c1` in `serverAB`. -/
def connA : ClientConnection := { userId := "user1", documentId := "doc1", isOpen := true }

/-- The connection record of `c2` in `serverAB`. -/
def connB : ClientConnection := { userId := "user2", documentId := "doc1", isOpen := true }

/-- An operation object whose three validated fields are all present,
with `position = 0`. -/
def operPos0 : OperFields :=
  { type_ := some "insert", position := some 0, userId := some "user1",
    content := some "Hello", length_ := none, operationId := some "op-1" }

/-- The same operation object with `position = 1`. -/
def operPos1 : OperFields :=
  { type_ := some "insert", position := some 1, userId := some "user1",
    content := some "Hello", length_ := none, operationId := some "op-2" }

/-- Replica of site `site1` after locally inserting `Hi` at 0. -/
def replicaA : Replica :=
  ((Replica.new "site1").applyLocalOperation (OpKind.insertK 0 ['H', 'i']) "op-a").1

/-- Replica of site `site2` after locally inserting `Yo` at 0. -/
def replicaB : Replica :=
  ((Replica.new "site2").applyLocalOperation (OpKind.insertK 0 ['Y', 'o']) "op-b").1

/-! ### Helper lemmas: canonical operation logs -/

/-- Membership after a canonical insertion. -/
theorem mem_insertOp (o a : Op) (l : List Op) :
    a ∈ insertOp o l ↔ a = o ∨ a ∈ l := by
  induction l with
  | nil => simp [insertOp]
  | cons x xs ih =>
    simp only [insertOp]
    split
    · rename_i hox
      subst hox
      simp only [List.mem_cons]
      tauto
    · split
      · simp only [List.mem_cons]
      · simp only [List.mem_cons, ih]
        tauto

/-- Canonical insertion preserves strict sortedness. -/
theorem sorted_insertOp (o : Op) (l : List Op) (h : l.Sorted (· < ·)) :
    (insertOp o l).Sorted (· < ·) := by
  induction l with
  | nil => simp [insertOp]
  | cons x xs ih =>
    rw [List.sorted_cons] at h
    obtain ⟨hx, hxs⟩ := h
    simp only [insertOp]
    split
    · exact List.sorted_cons.mpr ⟨hx, hxs⟩
    · split
      · rename_i hne hlt
        refine List.sorted_cons.mpr ⟨?_, List.sorted_cons.mpr ⟨hx, hxs⟩⟩
        intro b hb
        rcases List.mem_cons.mp hb with rfl | hb
        · exact hlt
        · exact lt_trans hlt (hx b hb)
      · rename_i hne hnlt
        have hxo : x < o := by
          rcases lt_trichotomy o x with h1 | h1 | h1
          · exact absurd h1 hnlt
          · exact absurd h1 hne
          · exact h1
        refine List.sorted_cons.mpr ⟨?_, ih hxs⟩
        intro b hb
        rcases (mem_insertOp o b xs).mp hb with rfl | hb
        · exact hxo
        · exact hx b hb

/-- Membership after merging an update into a log. -/
theorem mem_mergeOps (incoming : List Op) :
    ∀ (l : List Op) (a : Op), a ∈ mergeOps incoming l ↔ a ∈ incoming ∨ a ∈ l := by
  induction incoming with
  | nil => simp [mergeOps]
  | cons o os ih =>
    intro l a
    have step : mergeOps (o :: os) l = mergeOps os (insertOp o l) := by
      simp [mergeOps]
    rw [step, ih (insertOp o l) a, mem_insertOp]
    simp only [List.mem_cons]
    tauto

/-- Merging preserves canonical order. -/
theorem sorted_mergeOps (incoming : List Op) :
    ∀ l : List Op, l.Sorted (· < ·) → (mergeOps incoming l).Sorted (· < ·) := by
  induction incoming with
  | nil => intro l h; simpa [mergeOps] using h
  | cons o os ih =>
    intro l h
    have step : mergeOps (o :: os) l = mergeOps os (insertOp o l) := by
      simp [mergeOps]
    rw [step]
    exact ih (insertOp o l) (sorted_insertOp o l h)

/-- Two canonical logs with the same members are equal: the canonical
form of a set of operations is unique. -/
theorem canonical_ext (l1 l2 : List Op) (h1 : l1.Sorted (· < ·))
    (h2 : l2.Sorted (· < ·)) (hm : ∀ a, a ∈ l1 ↔ a ∈ l2) : l1 = l2 :=
  List.eq_of_perm_of_sorted
    ((List.perm_ext_iff_of_nodup h1.nodup h2.nodup).mpr hm) h1 h2

/-! ### Helper lemmas: broadcast fan-out -/

/-- Every message produced by a broadcast carries exactly the broadcast
event. -/
theorem broadcast_snd (st : ServerState) (documentId : String) (event : SMsg)
    (ex : Option String) :
    ∀ out ∈ broadcastToDocument st documentId event ex, out.2 = event := by
  intro out hout
  unfold broadcastToDocument at hout
  split at hout
  · simp at hout
  · obtain ⟨c, _, hc⟩ := List.mem_filterMap.mp hout
    split at hc
    · simp at hc
    · split at hc
      · simp only [Option.some.injEq] at hc
        subst hc
        rfl
      · simp at hc

/-- No message produced by a broadcast is addressed to the excluded
connection. -/
theorem broadcast_ne_excluded (st : ServerState) (documentId : String)
    (event : SMsg) (sender : String) :
    ∀ out ∈ broadcastToDocument st documentId event (some sender),
      out.1 ≠ sender := by
  intro out hout
  unfold broadcastToDocument at hout
  split at hout
  · simp at hout
  · obtain ⟨c, _, hc⟩ := List.mem_filterMap.mp hout
    split at hc
    · simp at hc
    · rename_i hneq
      split at hc
      · simp only [Option.some.injEq] at hc
        subst hc
        intro hcontra
        simp only at hcontra
        exact hneq (by rw [hcontra])
      · simp at hc

/-- Every open connection of the session other than the excluded one
receives the broadcast event. -/
theorem broadcast_mem (st : ServerState) (documentId : String) (event : SMsg)
    (sender : String) (session : DocumentSession)
    (hs : mapGet st.documents documentId = some session) :
    ∀ p ∈ session.connections, p.1 ≠ sender → p.2.isOpen = true →
      (p.1, event) ∈ broadcastToDocument st documentId event (some sender) := by
  intro p hp hne hopen
  unfold broadcastToDocument
  rw [hs]
  refine List.mem_filterMap.mpr ⟨p, hp, ?_⟩
  have hcond : ¬ (some sender = some p.1) := by
    intro h
    exact hne (Option.some.inj h).symm
  rw [if_neg hcond, if_pos hopen]

/-! ### Claims about the replicated-text layer -/

/-- Claim C10: for every string c and every prior document state t,
calling setContent(c) and then getContent() returns exactly c, so
getContent composed with setContent is the identity on strings. -/
theorem crdt_setContent_getContent_id (c t : List Char) :
    CRDT.getContent (CRDT.setContent c t) = c := by
  have hdel : CRDT.delete 0 (t.length) t = [] := by
    simp only [CRDT.delete]
    have h1 : clampPos 0 t.length = 0 := by simp [clampPos]
    rw [h1]
    have h2 : (max 0 (min ((t.length : Nat) : Int)
        ((t.length : Int) - ((0 : Nat) : Int)))).toNat = t.length := by
      omega
    rw [h2]
    simp
  simp only [CRDT.getContent, CRDT.setContent, hdel, CRDT.insert]
  simp [clampPos]

/-- Claim C3: for every document state t, every integer position p
(including p less than 0 and p greater than len) and every string s,
insert(p, s) succeeds and the new content equals t with s inserted at
position clamp(p, 0, len); in particular the new length is
len + len(s). -/
theorem crdt_insert_clamps_and_grows (t s : List Char) (p : Int) :
    CRDT.insert p s t = insertSpecAt t s p ∧
    (CRDT.insert p s t).length = t.length + s.length := by
  have hc : clampPos p t.length = clampSpec p t.length := by
    unfold clampPos clampSpec
    omega
  have hle : clampPos p t.length ≤ t.length := by
    unfold clampPos
    omega
  constructor
  · simp [CRDT.insert, insertSpecAt, hc]
  · simp only [CRDT.insert, List.length_append, List.length_take, List.length_drop]
    omega

/-- Claim C2, counterexample: at content "Hello" (len 5), p = 0 and
L = -1 the claim formula len - min(L, max(0, len - p)) demands length 6,
while CRDT.delete leaves the content untouched (length 5): the claimed
formula is wrong for negative lengths. -/
theorem crdt_delete_claim_formula_counterexample :
    ¬ (((CRDT.delete 0 (-1) ['H', 'e', 'l', 'l', 'o']).length : Int) =
        (5 : Int) - min (-1 : Int) (max 0 ((5 : Int) - 0))) := by decide

/-- Claim C2, amended: delete(p, L) always succeeds, and the resulting
length is len - min(max(L, 0), len - clamp(p, 0, len)) (the source
clamps the position into [0, len] first and then clamps the length into
[0, len - position]); a delete whose range starts inside the text and
extends past end-of-text removes exactly the characters in [p, len). -/
theorem crdt_delete_clamped_length (t : List Char) (p L : Int) :
    ((CRDT.delete p L t).length : Int) =
      (t.length : Int) - max 0 (min L ((t.length : Int) - (clampPos p t.length : Nat))) ∧
    (0 ≤ p → p ≤ (t.length : Int) → (t.length : Int) ≤ p + L →
      CRDT.delete p L t = t.take p.toNat) := by
  have hle : clampPos p t.length ≤ t.length := by
    unfold clampPos
    omega
  constructor
  · simp only [CRDT.delete, List.length_append, List.length_take, List.length_drop]
    omega
  · intro h1 h2 h3
    have hvp : clampPos p t.length = p.toNat := by
      unfold clampPos
      omega
    have hvl : (max 0 (min L ((t.length : Int) - (p.toNat : Int)))).toNat =
        t.length - p.toNat := by
      omega
    simp only [CRDT.delete, hvp, hvl]
    have hsum : p.toNat + (t.length - p.toNat) = t.length := by omega
    rw [hsum, List.drop_length, List.append_nil]

/-- Witness for the amended C2 theorem at content "Hello", p = 3,
L = 7: the over-long delete truncates to the tail [3, 5). -/
theorem crdt_delete_clamped_length_witness :
    CRDT.delete 3 7 ['H', 'e', 'l', 'l', 'o'] =
      (['H', 'e', 'l', 'l', 'o'] : List Char).take ((3 : Int).toNat) :=
  (crdt_delete_clamped_length ['H', 'e', 'l', 'l', 'o'] 3 7).2
    (by decide) (by decide) (by decide)

/-! ### Claims about the synchronisation layer -/

/-- Claim C1: two replicas of the same document that have incorporated
the same set of operations have the same content; in particular,
exchanging encoded state updates via importState in either order leaves
the two replicas with identical content. -/
theorem crdt_replicas_same_ops_converge (r1 r2 : Replica)
    (h1 : Canonical r1.ops) (h2 : Canonical r2.ops) :
    (r1.importState r2.exportState).content = (r2.importState r1.exportState).content ∧
    (r1.ops = r2.ops → r1.content = r2.content) := by
  constructor
  · have hs1 : (mergeOps r2.ops r1.ops).Sorted (· < ·) := sorted_mergeOps _ _ h1
    have hs2 : (mergeOps r1.ops r2.ops).Sorted (· < ·) := sorted_mergeOps _ _ h2
    have he : mergeOps r2.ops r1.ops = mergeOps r1.ops r2.ops := by
      refine canonical_ext _ _ hs1 hs2 ?_
      intro a
      rw [mem_mergeOps, mem_mergeOps]
      tauto
    simp [Replica.content, Replica.importState, Replica.exportState, he]
  · intro h
    simp [Replica.content, h]

/-- Witness for C1: two concrete single-op replicas converge to the
same content after cross-importing each other's exported state. -/
theorem crdt_replicas_same_ops_converge_witness :
    Canonical replicaA.ops ∧ Canonical replicaB.ops ∧
    (replicaA.importState replicaB.exportState).content =
      (replicaB.importState replicaA.exportState).content :=
  ⟨by decide, by decide,
    (crdt_replicas_same_ops_converge replicaA replicaB (by decide) (by decide)).1⟩

/-- Claim C9: importing an exported state into a freshly constructed
replica restores the original: content and the whole vector clock agree
with the source replica, so importState (exportState()) acts as the
identity on content. -/
theorem crdt_restore_snapshot_identity (r : Replica) (site : String)
    (h : Canonical r.ops) :
    ((Replica.new site).importState r.exportState).content = r.content ∧
    ∀ s, ((Replica.new site).importState r.exportState).vclock s = r.vclock s := by
  have he : mergeOps r.ops [] = r.ops := by
    refine canonical_ext _ _ (sorted_mergeOps _ _ (by simp)) h ?_
    intro a
    rw [mem_mergeOps]
    simp
  constructor
  · simp [Replica.content, Replica.importState, Replica.exportState, Replica.new, he]
  · intro s
    simp [Replica.vclock, Replica.importState, Replica.exportState, Replica.new, he]

/-- Witness for C9: restoring the exported state of a concrete replica
into a fresh instance reproduces its content. -/
theorem crdt_restore_snapshot_identity_witness :
    Canonical replicaA.ops ∧
    ((Replica.new "site9").importState replicaA.exportState).content = replicaA.content :=
  ⟨by decide, (crdt_restore_snapshot_identity replicaA "site9" (by decide)).1⟩

/-! ### Claims about the collaboration server -/

/-- Claim C4, code evaluation at the failing input: submitting a fully
valid operation message on a connection that never joined leaves the
server state untouched and sends NOTHING back - the source's error
branch re-fetches the same missing connection before calling sendError,
so no NotJoined error reply is ever produced. -/
theorem server_operation_before_join_silently_dropped :
    handleOperation emptyServer "c1" { operation := some operPos1 } =
      (emptyServer, []) := by decide

/-- Claim C5, code evaluation at the failing input: on a joined
connection, an operation whose type, position and userId fields are all
present but whose position is 0 is rejected with "Operation missing
required fields" (JavaScript `!operation.position` is true for 0) and
neither increments the op counter nor broadcasts; the same operation
with position 1 is accepted, bumps totalOperations to 1 and broadcasts
operation_received to the other peer only. -/
theorem server_operation_position_zero_rejected :
    handleOperation serverAB "c1" { operation := some operPos0 } =
      (serverAB, [("c1", SMsg.errorMsg "Operation missing required fields")]) ∧
    (handleOperation serverAB "c1" { operation := some operPos1 }).2 =
      [("c2", SMsg.operationReceived operPos1 "user1")] ∧
    ((mapGet (handleOperation serverAB "c1" { operation := some operPos1 }).1.documents
        "doc1").map DocumentSession.totalOperations) = some 1 :=
  ⟨by decide, by decide, by decide⟩

/-- Claim C6, counterexample: on a document whose content is empty
(len = 0), a cursor update with position -1 and a selection update with
start 5, end 2 are both accepted and broadcast verbatim, violating
0 <= pos <= len and start <= end: the server performs no clamping and
no normalisation. -/
theorem server_awareness_not_clamped_counterexample :
    (handleCursorUpdate serverAB "c1"
        { cursor := some { position := some (-1) } }).2 =
      [("c2", SMsg.cursorChanged (-1) "user1")] ∧
    ¬ ((0 : Int) ≤ -1) ∧
    (handleSelectionUpdate serverAB "c1"
        { selection := some { start := some 5, endPos := some 2 } }).2 =
      [("c2", SMsg.selectionChanged 5 2 "user1")] ∧
    ¬ ((5 : Int) ≤ 2) :=
  ⟨by decide, by decide, by decide, by decide⟩

/-- Claim C6, amended: an accepted cursor update is broadcast with the
supplied position exactly as given, and an accepted selection update is
broadcast with the supplied endpoints exactly as given - no clamping
into [0, len] and no normalisation of start <= end is performed. -/
theorem server_awareness_broadcast_verbatim (st : ServerState)
    (connectionId : String) (conn : ClientConnection) (session : DocumentSession)
    (pos s e : Int)
    (hc : mapGet st.connections connectionId = some conn)
    (hd : mapGet st.documents conn.documentId = some session) :
    (handleCursorUpdate st connectionId { cursor := some { position := some pos } }).2 =
      broadcastToDocument st conn.documentId
        (.cursorChanged pos conn.userId) (some connectionId) ∧
    (handleSelectionUpdate st connectionId
        { selection := some { start := some s, endPos := some e } }).2 =
      broadcastToDocument st conn.documentId
        (.selectionChanged s e conn.userId) (some connectionId) ∧
    (∀ out ∈ (handleCursorUpdate st connectionId
        { cursor := some { position := some pos } }).2,
      out.2 = SMsg.cursorChanged pos conn.userId) ∧
    (∀ out ∈ (handleSelectionUpdate st connectionId
        { selection := some { start := some s, endPos := some e } }).2,
      out.2 = SMsg.selectionChanged s e conn.userId) := by
  have h1 : (handleCursorUpdate st connectionId
      { cursor := some { position := some pos } }).2 =
      broadcastToDocument st conn.documentId
        (.cursorChanged pos conn.userId) (some connectionId) := by
    simp [handleCursorUpdate, hc, hd]
  have h2 : (handleSelectionUpdate st connectionId
      { selection := some { start := some s, endPos := some e } }).2 =
      broadcastToDocument st conn.documentId
        (.selectionChanged s e conn.userId) (some connectionId) := by
    simp [handleSelectionUpdate, hc, hd]
  refine ⟨h1, h2, ?_, ?_⟩
  · rw [h1]
    exact broadcast_snd st conn.documentId _ _
  · rw [h2]
    exact broadcast_snd st conn.documentId _ _

/-- Witness for the amended C6 theorem: a concrete accepted cursor
update with position -7 is broadcast with position -7. -/
theorem server_awareness_broadcast_verbatim_witness :
    (handleCursorUpdate serverAB "c1" { cursor := some { position := some (-7) } }).2 =
      broadcastToDocument serverAB connA.documentId
        (.cursorChanged (-7) connA.userId) (some "c1") :=
  (server_awareness_broadcast_verbatim serverAB "c1" connA sessionAB (-7) 0 0
    (by decide) (by decide)).1

/-- Claim C7: a join_document message with any of the required fields
userId, documentId or userName missing or not a string is answered with
a single error frame to the requesting connection, and the server state
(documents and connections tables) is completely unchanged. -/
theorem server_join_missing_field_error_no_mutation (st : ServerState)
    (connectionId : String) (msg : JoinMsg)
    (h : msg.userId = JField.missing ∨ msg.userId = JField.nonStringVal ∨
         msg.documentId = JField.missing ∨ msg.documentId = JField.nonStringVal ∨
         msg.userName = JField.missing ∨ msg.userName = JField.nonStringVal) :
    ∃ e, handleJoinDocument st connectionId msg =
      (st, [(connectionId, SMsg.errorMsg e)]) := by
  obtain ⟨u, d, n⟩ := msg
  simp only at h
  cases hu : JField.isValidString u with
  | false =>
    exact ⟨"User ID is required and must be a string",
      by simp [handleJoinDocument, hu]⟩
  | true =>
    cases hd : JField.isValidString d with
    | false =>
      exact ⟨"Document ID is required and must be a string",
        by simp [handleJoinDocument, hu, hd]⟩
    | true =>
      cases hn : JField.isValidString n with
      | false =>
        exact ⟨"User name is required and must be a string",
          by simp [handleJoinDocument, hu, hd, hn]⟩
      | true =>
        exfalso
        rcases h with h | h | h | h | h | h <;> subst h <;>
          simp_all [JField.isValidString]

/-- Witness for C7: joining with a missing userName is answered with an
error frame and leaves the empty server state unchanged. -/
theorem server_join_missing_field_error_no_mutation_witness :
    ∃ e, handleJoinDocument emptyServer "c1"
        { userId := JField.strVal "user1", documentId := JField.strVal "doc1",
          userName := JField.missing } =
      (emptyServer, [("c1", SMsg.errorMsg e)]) :=
  server_join_missing_field_error_no_mutation emptyServer "c1"
    { userId := JField.strVal "user1", documentId := JField.strVal "doc1",
      userName := JField.missing }
    (Or.inr (Or.inr (Or.inr (Or.inr (Or.inl rfl)))))

/-- Claim C8: a broadcast triggered by a submitting connection S is
never delivered to S itself and is delivered to every other open
connection of the document; moreover no handler addresses the
triggering event to its own sender: handleOperation only ever sends
error frames back to the sender, cursor and selection updates send
nothing at all to the sender, and handleJoinDocument never sends a
user_joined event to the joining connection. -/
theorem server_broadcast_excludes_sender (st : ServerState) (documentId : String)
    (event : SMsg) (sender : String) :
    (∀ out ∈ broadcastToDocument st documentId event (some sender), out.1 ≠ sender) ∧
    (∀ session, mapGet st.documents documentId = some session →
      ∀ p ∈ session.connections, p.1 ≠ sender → p.2.isOpen = true →
        (p.1, event) ∈ broadcastToDocument st documentId event (some sender)) ∧
    (∀ msg, ∀ out ∈ (handleOperation st sender msg).2, out.1 = sender →
      ∃ e, out.2 = SMsg.errorMsg e) ∧
    (∀ msg, ∀ out ∈ (handleCursorUpdate st sender msg).2, out.1 ≠ sender) ∧
    (∀ msg, ∀ out ∈ (handleSelectionUpdate st sender msg).2, out.1 ≠ sender) ∧
    (∀ msg, ∀ out ∈ (handleJoinDocument st sender msg).2, out.1 = sender →
      ∀ uid, out.2 ≠ SMsg.userJoined uid) := by
  refine ⟨broadcast_ne_excluded st documentId event sender,
    fun session hs => broadcast_mem st documentId event sender session hs,
    ?_, ?_, ?_, ?_⟩
  · intro msg out hout hsend
    unfold handleOperation at hout
    split at hout
    · simp at hout
    · split at hout
      · rw [List.mem_singleton] at hout
        subst hout
        exact ⟨_, rfl⟩
      · split at hout
        · rw [List.mem_singleton] at hout
          subst hout
          exact ⟨_, rfl⟩
        · split at hout
          · rw [List.mem_singleton] at hout
            subst hout
            exact ⟨_, rfl⟩
          · exact absurd hsend (broadcast_ne_excluded _ _ _ _ out hout)
  · intro msg out hout
    unfold handleCursorUpdate at hout
    split at hout
    · simp at hout
    · split at hout
      · simp at hout
      · split at hout
        · simp at hout
        · split at hout
          · simp at hout
          · exact broadcast_ne_excluded _ _ _ _ out hout
  · intro msg out hout
    unfold handleSelectionUpdate at hout
    split at hout
    · simp at hout
    · split at hout
      · simp at hout
      · split at hout
        · simp at hout
        · split at hout
          · simp at hout
          · split at hout
            · simp at hout
            · exact broadcast_ne_excluded _ _ _ _ out hout
  · intro msg out hout hsend uid
    unfold handleJoinDocument at hout
    split at hout
    · rw [List.mem_singleton] at hout
      subst hout
      simp
    · split at hout
      · rw [List.mem_singleton] at hout
        subst hout
        simp
      · split at hout
        · rw [List.mem_singleton] at hout
          subst hout
          simp
        · split at hout
          · rw [List.mem_singleton] at hout
            subst hout
            simp
          · rcases List.mem_append.mp hout with hmem | hmem
            · rcases List.mem_append.mp hmem with hmem2 | hmem2
              · rw [List.mem_singleton] at hmem2
                subst hmem2
                simp
              · exact absurd hsend (broadcast_ne_excluded _ _ _ _ out hmem2)
            · rw [List.mem_singleton] at hmem
              subst hmem
              simp

/-- Witness for C8: in the two-peer fixture, a user_joined broadcast
triggered by c1 reaches the open connection c2 and is not delivered
to c1 itself. -/
theorem server_broadcast_excludes_sender_witness :
    (("c2", SMsg.userJoined "user1") ∈
      broadcastToDocument serverAB "doc1" (SMsg.userJoined "user1") (some "c1")) ∧
    ¬ (("c1", SMsg.userJoined "user1") ∈
      broadcastToDocument serverAB "doc1" (SMsg.userJoined "user1") (some "c1")) := by
  constructor
  · exact (server_broadcast_excludes_sender serverAB "doc1"
      (SMsg.userJoined "user1") "c1").2.1 sessionAB (by decide)
      ("c2", connB) (by decide) (by decide) (by decide)
  · intro hmem
    exact (server_broadcast_excludes_sender serverAB "doc1"
      (SMsg.userJoined "user1") "c1").1 _ hmem rfl
